import Mathlib

/-!
Shallow embedding of `src/polaris_api_client.py`, a thin HTTP client for a
Polaris catalog service, together with proofs about its response handling,
request construction and entry-point control flow.

Modelling conventions:
* JSON values are the inductive `Json` below; an HTTP response is modelled
  after the JSON parse, as a status code plus a parsed `Json` body (the
  `requests` library and the JSON parser itself are outside the program).
* Python exceptions raised by the program's own code (`KeyError`,
  `TypeError`, `requests.HTTPError` from `raise_for_status`) are modelled
  with `Except PyErr`.
* Each operation of the client is a Lean function from its inputs and the
  HTTP response it receives to the pair of the `Request` it issues and the
  value it returns (or the exception it raises).
* Environment configuration (`POLARIS_HOST`, client id, client secret) is
  passed as explicit parameters.
-/

set_option autoImplicit false

/-- JSON values as parsed by Python's `json` module: objects become dicts
(association lists in insertion order, keys unique after parsing), arrays
become lists, numbers here restricted to integers (the payloads the client
traverses use integer ids and timestamps). -/
inductive Json where
  | null
  | bool (b : Bool)
  | num (n : Int)
  | str (s : String)
  | arr (elems : List Json)
  | obj (entries : List (String × Json))

mutual

def Json.beq : Json → Json → Bool
  | .null, .null => true
  | .bool a, .bool b => a == b
  | .num a, .num b => a == b
  | .str a, .str b => a == b
  | .arr xs, .arr ys => Json.beqList xs ys
  | .obj xs, .obj ys => Json.beqObj xs ys
  | _, _ => false

def Json.beqList (us vs : List Json) : Bool :=
  match us, vs with
  | u :: us', v :: vs' => Json.beq u v && Json.beqList us' vs'
  | [], [] => true
  | _, _ => false

def Json.beqObj (ps qs : List (String × Json)) : Bool :=
  match ps, qs with
  | (k, v) :: ps', (l, w) :: qs' => k == l && Json.beq v w && Json.beqObj ps' qs'
  | [], [] => true
  | _, _ => false

end

mutual

theorem Json.beq_iff : ∀ a b : Json, Json.beq a b = true ↔ a = b
  | .null, b => by cases b <;> simp [Json.beq]
  | .bool _, b => by cases b <;> simp [Json.beq]
  | .num _, b => by cases b <;> simp [Json.beq]
  | .str _, b => by cases b <;> simp [Json.beq]
  | .arr xs, b => by
      cases b <;> simp [Json.beq]
      case arr ys => exact Json.beqList_iff xs ys
  | .obj xs, b => by
      cases b <;> simp [Json.beq]
      case obj ys => exact Json.beqObj_iff xs ys

theorem Json.beqList_iff : ∀ us vs : List Json, Json.beqList us vs = true ↔ us = vs
  | u :: us', v :: vs' => by
      simp [Json.beqList, Json.beq_iff u v, Json.beqList_iff us' vs']
  | [], [] => by simp [Json.beqList]
  | [], _ :: _ => by simp [Json.beqList]
  | _ :: _, [] => by simp [Json.beqList]

theorem Json.beqObj_iff : ∀ ps qs : List (String × Json), Json.beqObj ps qs = true ↔ ps = qs
  | (k, v) :: ps', (l, w) :: qs' => by
      simp [Json.beqObj, Json.beq_iff v w, Json.beqObj_iff ps' qs', and_assoc]
  | [], [] => by simp [Json.beqObj]
  | [], _ :: _ => by simp [Json.beqObj]
  | _ :: _, [] => by simp [Json.beqObj]

end

instance : DecidableEq Json := fun a b => decidable_of_iff _ (Json.beq_iff a b)

instance : BEq Json := ⟨Json.beq⟩

theorem Json.beq_eq_decide (a b : Json) : (a == b) = decide (a = b) := by
  rcases Decidable.em (a = b) with h | h
  · subst h
    simp [BEq.beq, (Json.beq_iff a a).2 rfl]
  · have hb : Json.beq a b = false := by
      cases hc : Json.beq a b
      · rfl
      · exact absurd ((Json.beq_iff a b).1 hc) h
    simp [BEq.beq, hb, h]

instance {ε α : Type} [DecidableEq ε] [DecidableEq α] : DecidableEq (Except ε α) := fun a b =>
  match a, b with
  | .error e, .error f =>
      if h : e = f then isTrue (h ▸ rfl)
      else isFalse fun hc => h (by injection hc)
  | .ok x, .ok y =>
      if h : x = y then isTrue (h ▸ rfl)
      else isFalse fun hc => h (by injection hc)
  | .error _, .ok _ => isFalse fun hc => Except.noConfusion hc
  | .ok _, .error _ => isFalse fun hc => Except.noConfusion hc

/-- Python exceptions that the client's own code can raise. -/
inductive PyErr where
  | keyError (k : String)
  | typeError
  | httpError (status : Nat)
  deriving DecidableEq

/-- An HTTP response as the client sees it: status code and parsed JSON body. -/
structure Response where
  status : Nat
  body : Json
  deriving DecidableEq

inductive Method where
  | get
  | post
  deriving DecidableEq

/-- The request an operation issues: method, URL, the bearer-token value
placed in the `Authorization` header (if any), the JSON payload (if any),
and the form-urlencoded payload (if any). -/
structure Request where
  method : Method
  url : String
  auth : Option Json
  jsonBody : Option Json
  formBody : List (String × String)
  deriving DecidableEq

namespace Json

/-- Python `d[k]`: `KeyError` when `d` is a dict without key `k`,
`TypeError` when `d` is not a dict (string/int subscripts aside, which the
client never uses). -/
def getItem : Json → String → Except PyErr Json
  | .obj kvs, k =>
    match kvs.lookup k with
    | none => .error (.keyError k)
    | some v => .ok v
  | _, _ => .error .typeError

/-- Python `d.get(k, default)`; the client only applies it to values it has
already subscripted successfully, hence to dicts. -/
def getDefault (j : Json) (k : String) (d : Json) : Json :=
  match j with
  | .obj kvs => (kvs.lookup k).getD d
  | _ => d

/-- Python `for x in j`: arrays yield their elements, dicts their keys,
strings their one-character substrings; other values raise `TypeError`. -/
def iterElems : Json → Except PyErr (List Json)
  | .arr xs => .ok xs
  | .obj kvs => .ok (kvs.map fun kv => .str kv.1)
  | .str s => .ok (s.data.map fun c => .str (String.mk [c]))
  | _ => .error .typeError

/-- Python `len(j)`: defined for arrays, dicts and strings. -/
def pyLen : Json → Except PyErr Nat
  | .arr xs => .ok xs.length
  | .obj kvs => .ok kvs.length
  | .str s => .ok s.length
  | _ => .error .typeError

end Json

/-- Embedding of `requests.Response.raise_for_status`: raises `HTTPError` exactly for
status codes in `[400, 600)`. -/
def raise_for_status (resp : Response) : Except PyErr Unit :=
  if 400 ≤ resp.status ∧ resp.status < 600 then .error (.httpError resp.status)
  else .ok ()

/-- URL of the token endpoint (`get_token`). -/
def token_url (host : String) : String :=
  "http://" ++ host ++ "/api/catalog/v1/oauth/tokens"

/-- Embedding of `get_token`: POSTs the client-credentials form, raises on HTTP error
status, then returns `response.json()["access_token"]`. -/
def get_token (host client_id client_secret : String) (resp : Response) :
    Request × Except PyErr Json :=
  (⟨.post, token_url host, none, none,
    [("scope", "PRINCIPAL_ROLE:ALL"),
     ("grant_type", "client_credentials"),
     ("client_id", client_id),
     ("client_secret", client_secret)]⟩,
   do
     let _ ← raise_for_status resp
     resp.body.getItem "access_token")

/-- Embedding of `list_catalogs`: GET on the management API; 200 yields the parsed body,
anything else yields `None`. The function body contains no raising
construct, which the `Except` result type makes explicit. -/
def list_catalogs (host : String) (token : Json) (resp : Response) :
    Request × Except PyErr (Option Json) :=
  (⟨.get, "http://" ++ host ++ "/api/management/v1/catalogs", some token, none, []⟩,
   .ok (if resp.status = 200 then some resp.body else none))

/-- Embedding of `list_namespaces`: GET on the per-catalog data API. -/
def list_namespaces (host : String) (token : Json) (catalog_name : String)
    (resp : Response) : Request × Except PyErr (Option Json) :=
  (⟨.get, "http://" ++ host ++ "/api/catalog/v1/" ++ catalog_name ++ "/namespaces",
    some token, none, []⟩,
   .ok (if resp.status = 200 then some resp.body else none))

/-- Embedding of `list_tables`: GET on the per-catalog data API. -/
def list_tables (host : String) (token : Json) (catalog_name namespace_name : String)
    (resp : Response) : Request × Except PyErr (Option Json) :=
  (⟨.get, "http://" ++ host ++ "/api/catalog/v1/" ++ catalog_name ++ "/namespaces/" ++
      namespace_name ++ "/tables",
    some token, none, []⟩,
   .ok (if resp.status = 200 then some resp.body else none))

/-- Payload built by `create_catalog`: type is always `"INTERNAL"`, the base
location is the single entry of `properties`. -/
def create_catalog_payload (catalog_name base_location : String)
    (storage_config : Json) : Json :=
  .obj [("type", .str "INTERNAL"),
        ("name", .str catalog_name),
        ("properties", .obj [("default-base-location", .str base_location)]),
        ("storageConfigInfo", storage_config)]

/-- Embedding of `create_catalog`: POST on the management API; 200 or 201 yields the
parsed body, anything else yields `None`. -/
def create_catalog (host : String) (token : Json)
    (catalog_name base_location : String) (storage_config : Json)
    (resp : Response) : Request × Except PyErr (Option Json) :=
  (⟨.post, "http://" ++ host ++ "/api/management/v1/catalogs", some token,
    some (create_catalog_payload catalog_name base_location storage_config), []⟩,
   .ok (if resp.status = 200 ∨ resp.status = 201 then some resp.body else none))

/-- Python truthiness on JSON values, for the `properties or {}` idiom. -/
def pyTruthy : Json → Bool
  | .null => false
  | .bool b => b
  | .num n => n != 0
  | .str s => s != ""
  | .arr xs => !xs.isEmpty
  | .obj kvs => !kvs.isEmpty

/-- Payload built by `create_namespace`: the namespace identifier is the
one-element list `[namespace_name]`; `properties or {}` replaces a missing
or falsy properties argument by the empty dict. -/
def create_namespace_payload (namespace_name : String) (properties : Option Json) : Json :=
  .obj [("namespace", .arr [.str namespace_name]),
        ("properties",
         match properties with
         | some p => if pyTruthy p then p else .obj []
         | none => .obj [])]

/-- Embedding of `create_namespace`: POST on the per-catalog data API. -/
def create_namespace (host : String) (token : Json)
    (catalog_name namespace_name : String) (properties : Option Json)
    (resp : Response) : Request × Except PyErr (Option Json) :=
  (⟨.post, "http://" ++ host ++ "/api/catalog/v1/" ++ catalog_name ++ "/namespaces",
    some token, some (create_namespace_payload namespace_name properties), []⟩,
   .ok (if resp.status = 200 ∨ resp.status = 201 then some resp.body else none))

/-- Payload built by `create_table`. -/
def create_table_payload (table_name : String) (schema : Json)
    (properties : Option Json) : Json :=
  .obj [("name", .str table_name),
        ("schema", schema),
        ("properties",
         match properties with
         | some p => if pyTruthy p then p else .obj []
         | none => .obj [])]

/-- Embedding of `create_table`: POST on the per-catalog data API. -/
def create_table (host : String) (token : Json)
    (catalog_name namespace_name table_name : String) (schema : Json)
    (properties : Option Json) (resp : Response) :
    Request × Except PyErr (Option Json) :=
  (⟨.post, "http://" ++ host ++ "/api/catalog/v1/" ++ catalog_name ++ "/namespaces/" ++
      namespace_name ++ "/tables",
    some token, some (create_table_payload table_name schema properties), []⟩,
   .ok (if resp.status = 200 ∨ resp.status = 201 then some resp.body else none))

/-- One line of `get_table_metadata`'s per-schema report: the schema id and
the `(name, type)` pair of each field, as printed by the loop over
`metadata["metadata"]["schemas"]`. -/
structure SchemaSummary where
  schemaId : Json
  fields : List (Json × Json)
  deriving DecidableEq

/-- One line of `get_table_metadata`'s per-snapshot report: id, timestamp,
operation (`'N/A'` when absent), summary (`{}` when absent), and whether the
`^ CURRENT SNAPSHOT` marker is printed for it. -/
structure SnapshotSummary where
  snapshotId : Json
  timestampMs : Json
  operation : Json
  summary : Json
  isCurrent : Bool
  deriving DecidableEq

/-- Everything `get_table_metadata` reports about a 200 body. -/
structure MetadataReport where
  currentSchemaId : Json
  schemas : List SchemaSummary
  currentSnapshotId : Json
  snapshots : List SnapshotSummary
  deriving DecidableEq

/-- The body of `get_table_metadata`'s field loop:
`field['name']`, `field['type']`. -/
def readField (f : Json) : Except PyErr (Json × Json) := do
  let n ← f.getItem "name"
  let t ← f.getItem "type"
  pure (n, t)

/-- The body of `get_table_metadata`'s schema loop: `schema['schema-id']`,
then the loop `for field in schema["fields"]`. -/
def readSchema (s : Json) : Except PyErr SchemaSummary := do
  let sid ← s.getItem "schema-id"
  let fieldsJ ← s.getItem "fields"
  let felems ← fieldsJ.iterElems
  let fields ← felems.mapM readField
  pure ⟨sid, fields⟩

/-- The body of `get_table_metadata`'s snapshot loop: `snapshot['snapshot-id']`,
`snapshot['timestamp-ms']`, `snapshot.get('operation', 'N/A')`,
`snapshot.get('summary', {})`, and the `==` comparison against the current
snapshot id that decides the `^ CURRENT SNAPSHOT` marker. -/
def readSnapshot (cur : Json) (s : Json) : Except PyErr SnapshotSummary := do
  let sid ← s.getItem "snapshot-id"
  let ts ← s.getItem "timestamp-ms"
  let op := s.getDefault "operation" (.str "N/A")
  let sm := s.getDefault "summary" (.obj [])
  pure ⟨sid, ts, op, sm, sid == cur⟩

/-- The JSON traversal `get_table_metadata` performs on a 200 body, in the
source's evaluation order (the `len(...)` calls are kept because they can
raise `TypeError` before the corresponding loop runs). -/
def processMetadata (body : Json) : Except PyErr MetadataReport := do
  let m ← body.getItem "metadata"
  let csid ← m.getItem "current-schema-id"
  let schemasJ ← m.getItem "schemas"
  let _ ← schemasJ.pyLen
  let selems ← schemasJ.iterElems
  let schemas ← selems.mapM readSchema
  let snapsJ ← m.getItem "snapshots"
  let cur ← m.getItem "current-snapshot-id"
  let _ ← snapsJ.pyLen
  let snElems ← snapsJ.iterElems
  let snaps ← snElems.mapM (readSnapshot cur)
  pure ⟨csid, schemas, cur, snaps⟩

/-- Embedding of `get_table_metadata`: GET on the per-catalog data API; on a 200 response
it traverses the body (possibly raising `KeyError`/`TypeError`) and returns
the parsed body, paired here with the report it prints; on any other status
it prints the error text and returns `None`. -/
def get_table_metadata (host : String) (token : Json)
    (catalog_name namespace_name table_name : String) (resp : Response) :
    Request × Except PyErr (Option (MetadataReport × Json)) :=
  (⟨.get, "http://" ++ host ++ "/api/catalog/v1/" ++ catalog_name ++ "/namespaces/" ++
      namespace_name ++ "/tables/" ++ table_name,
    some token, none, []⟩,
   if resp.status = 200 then do
     let report ← processMetadata resp.body
     pure (some (report, resp.body))
   else pure none)

/- Hardcoded names used by `main`. -/

def catalog_name : String := "polaris4"

def namespace_name : String := "polaris4_namespace"

def table_name : String := "customers"

/-- The operations `main` can issue, in the order the source lists them. -/
inductive OpCall where
  | authenticateCall
  | listCatalogsCall
  | listNamespacesCall
  | listTablesCall
  | getTableMetadataCall
  deriving DecidableEq

/-- The sequence of operations `main` issues, given the responses each
request would receive. `main` runs inside `try/except`: an exception raised
by one call skips the remaining calls (and is then caught and printed), so
each step is recorded before its result is examined and the sequence stops
at the first `.error`. The creation calls are commented out in the source
and do not appear. -/
def mainTrace (host client_id client_secret : String)
    (tokenResp r1 r2 r3 r4 : Response) : List OpCall :=
  .authenticateCall ::
    match (get_token host client_id client_secret tokenResp).2 with
    | .error _ => []
    | .ok token =>
      .listCatalogsCall ::
        match (list_catalogs host token r1).2 with
        | .error _ => []
        | .ok _ =>
          .listNamespacesCall ::
            match (list_namespaces host token catalog_name r2).2 with
            | .error _ => []
            | .ok _ =>
              .listTablesCall ::
                match (list_tables host token catalog_name namespace_name r3).2 with
                | .error _ => []
                | .ok _ =>
                  .getTableMetadataCall ::
                    match (get_table_metadata host token catalog_name namespace_name
                        table_name r4).2 with
                    | .error _ => []
                    | .ok _ => []

/-!
Specification-side definitions. These restate, in the spec's vocabulary,
which keys `get_table_metadata` requires of a 200 body and what it reports;
they are compared with `processMetadata` (the code-side traversal) in the
theorems below.
-/

/-- Spec-side total lookup of a key in a JSON object. -/
def lookupKey : Json → String → Option Json
  | .obj kvs, k => kvs.lookup k
  | _, _ => none

/-- Spec-side: `j` is an object with key `k`. -/
def hasKey (j : Json) (k : String) : Bool :=
  (lookupKey j k).isSome

/-- Spec-side total lookup, `null` when absent. -/
def keyOr (j : Json) (k : String) : Json :=
  (lookupKey j k).getD .null

/-- Spec-side: values Python can iterate over and take `len` of. -/
def iterable : Json → Bool
  | .arr _ => true
  | .obj _ => true
  | .str _ => true
  | _ => false

/-- Spec-side: the elements Python iteration yields. -/
def elemsOf : Json → List Json
  | .arr xs => xs
  | .obj kvs => kvs.map fun kv => .str kv.1
  | .str s => s.data.map fun c => .str (String.mk [c])
  | _ => []

/-- Spec-side: a field must carry `name` and `type`. -/
def fieldOK (f : Json) : Bool :=
  hasKey f "name" && hasKey f "type"

/-- Spec-side: a schema must carry `schema-id` and an iterable `fields`
whose elements are all well-formed fields. -/
def schemaOK (s : Json) : Bool :=
  hasKey s "schema-id" && hasKey s "fields" && iterable (keyOr s "fields") &&
    (elemsOf (keyOr s "fields")).all fieldOK

/-- Spec-side: a snapshot must carry `snapshot-id` and `timestamp-ms`;
`operation` and `summary` are optional. -/
def snapshotOK (s : Json) : Bool :=
  hasKey s "snapshot-id" && hasKey s "timestamp-ms"

/-- Spec-side: exactly the keys a 200 body must offer for
`get_table_metadata` to complete without an exception. -/
def metadataOK (body : Json) : Bool :=
  hasKey body "metadata" &&
    (let m := keyOr body "metadata"
     hasKey m "current-schema-id" && hasKey m "schemas" &&
       iterable (keyOr m "schemas") && (elemsOf (keyOr m "schemas")).all schemaOK &&
       hasKey m "snapshots" && hasKey m "current-snapshot-id" &&
       iterable (keyOr m "snapshots") && (elemsOf (keyOr m "snapshots")).all snapshotOK)

/-- Spec-side field summary. -/
def fieldSpec (f : Json) : Json × Json :=
  (keyOr f "name", keyOr f "type")

/-- Spec-side schema summary. -/
def schemaSpec (s : Json) : SchemaSummary :=
  ⟨keyOr s "schema-id", (elemsOf (keyOr s "fields")).map fieldSpec⟩

/-- Spec-side snapshot summary: absent `operation`/`summary` keys default to
`"N/A"` and `{}`; the snapshot is flagged current exactly when its id equals
the body's current snapshot id. -/
def snapshotSpec (cur : Json) (s : Json) : SnapshotSummary :=
  ⟨keyOr s "snapshot-id", keyOr s "timestamp-ms",
   (lookupKey s "operation").getD (.str "N/A"),
   (lookupKey s "summary").getD (.obj []),
   keyOr s "snapshot-id" == cur⟩

/-- Spec-side description of the whole report. -/
def reportSpec (body : Json) : MetadataReport :=
  let m := keyOr body "metadata"
  let cur := keyOr m "current-snapshot-id"
  ⟨keyOr m "current-schema-id",
   (elemsOf (keyOr m "schemas")).map schemaSpec,
   cur,
   (elemsOf (keyOr m "snapshots")).map (snapshotSpec cur)⟩

/-- The management-API path prefix (catalog CRUD). -/
def management_base (host : String) : String :=
  "http://" ++ host ++ "/api/management/v1"

/-- The per-catalog data-API path prefix (namespace/table CRUD, metadata). -/
def data_api_base (host catalog : String) : String :=
  "http://" ++ host ++ "/api/catalog/v1/" ++ catalog

/-- The two schema objects of the spec's metadata scenario (ids 0 and 1). -/
def scenarioSchemas : List Json :=
  [.obj [("schema-id", .num 0),
         ("fields", .arr [.obj [("name", .str "id"), ("type", .str "long")]])],
   .obj [("schema-id", .num 1),
         ("fields", .arr [.obj [("name", .str "id"), ("type", .str "long")],
                          .obj [("name", .str "created_at"), ("type", .str "timestamp")]])]]

/-- The two snapshot objects of the spec's metadata scenario (ids 100 and
99); snapshot 99 carries no `operation`/`summary` keys. -/
def scenarioSnapshots : List Json :=
  [.obj [("snapshot-id", .num 100), ("timestamp-ms", .num 1700000000000),
         ("operation", .str "append"), ("summary", .obj [("added-files", .num 2)])],
   .obj [("snapshot-id", .num 99), ("timestamp-ms", .num 1600000000000)]]

/-- A metadata body whose two snapshots share the id 100, which is also the
current snapshot id. -/
def dupSnapshotBody : Json :=
  .obj [("metadata", .obj
    [("current-schema-id", .num 0),
     ("schemas", .arr [.obj [("schema-id", .num 0), ("fields", .arr [])]]),
     ("snapshots", .arr
       [.obj [("snapshot-id", .num 100), ("timestamp-ms", .num 1)],
        .obj [("snapshot-id", .num 100), ("timestamp-ms", .num 2)]]),
     ("current-snapshot-id", .num 100)])]

/-- The `metadata` object of the spec's metadata scenario:
`current-schema-id: 1`, `current-snapshot-id: 100`. -/
def scenarioMeta : Json :=
  .obj [("current-schema-id", .num 1),
        ("schemas", .arr scenarioSchemas),
        ("snapshots", .arr scenarioSnapshots),
        ("current-snapshot-id", .num 100)]

/-- The whole body of the spec's metadata scenario. -/
def scenarioBody : Json :=
  .obj [("metadata", scenarioMeta)]

/-!
Helper lemmas: how the code-side accessors relate to the spec-side
predicates, and how `List.mapM` over `Except` succeeds or fails.
-/

theorem exBind_ok {α β : Type} (a : α) (g : α → Except PyErr β) :
    (Except.ok a >>= g) = g a := rfl

theorem exBind_err {α β : Type} (e : PyErr) (g : α → Except PyErr β) :
    ((Except.error e : Except PyErr α) >>= g) = Except.error e := rfl

theorem exPure {α : Type} (a : α) : (pure a : Except PyErr α) = Except.ok a := rfl

theorem getItem_of_hasKey (j : Json) (k : String) (h : hasKey j k = true) :
    j.getItem k = .ok (keyOr j k) := by
  cases j
  case obj kvs =>
    cases hv : kvs.lookup k with
    | some v => simp [Json.getItem, keyOr, lookupKey, hv]
    | none => simp [hasKey, lookupKey, hv] at h
  all_goals simp [hasKey, lookupKey] at h

theorem getItem_err_of_not_hasKey (j : Json) (k : String) (h : hasKey j k = false) :
    ∃ e, j.getItem k = .error e := by
  cases j
  case obj kvs =>
    cases hv : kvs.lookup k with
    | none => exact ⟨.keyError k, by simp [Json.getItem, hv]⟩
    | some v => simp [hasKey, lookupKey, hv] at h
  all_goals exact ⟨.typeError, rfl⟩

theorem iterElems_of_iterable (j : Json) (h : iterable j = true) :
    j.iterElems = .ok (elemsOf j) := by
  cases j <;> simp_all [iterable, Json.iterElems, elemsOf]

theorem iterElems_err (j : Json) (h : iterable j = false) :
    j.iterElems = .error .typeError := by
  cases j <;> simp_all [iterable, Json.iterElems]

theorem pyLen_of_iterable (j : Json) (h : iterable j = true) :
    ∃ n, j.pyLen = .ok n := by
  cases j <;> simp_all [iterable, Json.pyLen]

theorem getDefault_eq (j : Json) (k : String) (d : Json) :
    j.getDefault k d = (lookupKey j k).getD d := by
  cases j <;> simp [Json.getDefault, lookupKey]

theorem mapM_ok_of_all {α β : Type} (f : α → Except PyErr β) (p : α → Bool) (g : α → β)
    (hok : ∀ x, p x = true → f x = .ok (g x)) :
    ∀ xs : List α, xs.all p = true → xs.mapM f = .ok (xs.map g)
  | [], _ => by rw [List.mapM_nil]; rfl
  | x :: xs, h => by
      rw [List.all_cons, Bool.and_eq_true] at h
      rw [List.mapM_cons, hok x h.1, mapM_ok_of_all f p g hok xs h.2]
      rfl

theorem mapM_err_of_not_all {α β : Type} (f : α → Except PyErr β) (p : α → Bool)
    (hok : ∀ x, p x = true → ∃ y, f x = .ok y)
    (herr : ∀ x, p x = false → ∃ e, f x = .error e) :
    ∀ xs : List α, xs.all p = false → ∃ e, xs.mapM f = .error e
  | [], h => by simp at h
  | x :: xs, h => by
      rw [List.all_cons] at h
      cases hpx : p x with
      | false =>
          obtain ⟨e, he⟩ := herr x hpx
          exact ⟨e, by rw [List.mapM_cons, he]; rfl⟩
      | true =>
          obtain ⟨y, hy⟩ := hok x hpx
          have hxs : xs.all p = false := by
            cases hall : xs.all p
            · rfl
            · rw [hpx, hall] at h; cases h
          obtain ⟨e, he⟩ := mapM_err_of_not_all f p hok herr xs hxs
          exact ⟨e, by rw [List.mapM_cons, hy, exBind_ok, he]; rfl⟩

theorem readField_ok (f : Json) (h : fieldOK f = true) :
    readField f = .ok (fieldSpec f) := by
  rw [fieldOK, Bool.and_eq_true] at h
  rw [readField, getItem_of_hasKey f "name" h.1, exBind_ok,
    getItem_of_hasKey f "type" h.2, exBind_ok]
  rfl

theorem readField_err (f : Json) (h : fieldOK f = false) :
    ∃ e, readField f = .error e := by
  cases h1 : hasKey f "name" with
  | false =>
      obtain ⟨e, he⟩ := getItem_err_of_not_hasKey f "name" h1
      exact ⟨e, by rw [readField, he]; rfl⟩
  | true =>
      cases h2 : hasKey f "type" with
      | false =>
          obtain ⟨e, he⟩ := getItem_err_of_not_hasKey f "type" h2
          exact ⟨e, by rw [readField, getItem_of_hasKey f "name" h1, exBind_ok, he]; rfl⟩
      | true => rw [fieldOK, h1, h2] at h; cases h

theorem readSchema_ok (s : Json) (h : schemaOK s = true) :
    readSchema s = .ok (schemaSpec s) := by
  rw [schemaOK, Bool.and_eq_true, Bool.and_eq_true, Bool.and_eq_true] at h
  obtain ⟨⟨⟨h1, h2⟩, h3⟩, h4⟩ := h
  rw [readSchema, getItem_of_hasKey s "schema-id" h1, exBind_ok,
    getItem_of_hasKey s "fields" h2, exBind_ok,
    iterElems_of_iterable _ h3, exBind_ok,
    mapM_ok_of_all readField fieldOK fieldSpec readField_ok _ h4, exBind_ok]
  rfl

theorem readSchema_err (s : Json) (h : schemaOK s = false) :
    ∃ e, readSchema s = .error e := by
  cases h1 : hasKey s "schema-id" with
  | false =>
      obtain ⟨e, he⟩ := getItem_err_of_not_hasKey s "schema-id" h1
      exact ⟨e, by rw [readSchema, he]; rfl⟩
  | true =>
  cases h2 : hasKey s "fields" with
  | false =>
      obtain ⟨e, he⟩ := getItem_err_of_not_hasKey s "fields" h2
      exact ⟨e, by rw [readSchema, getItem_of_hasKey s "schema-id" h1, exBind_ok, he]; rfl⟩
  | true =>
  cases h3 : iterable (keyOr s "fields") with
  | false =>
      exact ⟨.typeError, by
        rw [readSchema, getItem_of_hasKey s "schema-id" h1, exBind_ok,
          getItem_of_hasKey s "fields" h2, exBind_ok, iterElems_err _ h3]; rfl⟩
  | true =>
  cases h4 : (elemsOf (keyOr s "fields")).all fieldOK with
  | false =>
      obtain ⟨e, he⟩ := mapM_err_of_not_all readField fieldOK
        (fun x hx => ⟨fieldSpec x, readField_ok x hx⟩) readField_err _ h4
      exact ⟨e, by
        rw [readSchema, getItem_of_hasKey s "schema-id" h1, exBind_ok,
          getItem_of_hasKey s "fields" h2, exBind_ok,
          iterElems_of_iterable _ h3, exBind_ok, he]; rfl⟩
  | true => rw [schemaOK, h1, h2, h3, h4] at h; cases h

theorem readSnapshot_ok (cur s : Json) (h : snapshotOK s = true) :
    readSnapshot cur s = .ok (snapshotSpec cur s) := by
  rw [snapshotOK, Bool.and_eq_true] at h
  rw [readSnapshot, getItem_of_hasKey s "snapshot-id" h.1, exBind_ok,
    getItem_of_hasKey s "timestamp-ms" h.2, exBind_ok]
  rw [exPure, snapshotSpec, getDefault_eq, getDefault_eq]

theorem readSnapshot_err (cur s : Json) (h : snapshotOK s = false) :
    ∃ e, readSnapshot cur s = .error e := by
  cases h1 : hasKey s "snapshot-id" with
  | false =>
      obtain ⟨e, he⟩ := getItem_err_of_not_hasKey s "snapshot-id" h1
      exact ⟨e, by rw [readSnapshot, he]; rfl⟩
  | true =>
      cases h2 : hasKey s "timestamp-ms" with
      | false =>
          obtain ⟨e, he⟩ := getItem_err_of_not_hasKey s "timestamp-ms" h2
          exact ⟨e, by rw [readSnapshot, getItem_of_hasKey s "snapshot-id" h1, exBind_ok, he]; rfl⟩
      | true => rw [snapshotOK, h1, h2] at h; cases h

theorem processMetadata_ok (body : Json) (h : metadataOK body = true) :
    processMetadata body = .ok (reportSpec body) := by
  rw [metadataOK] at h
  simp only [Bool.and_eq_true] at h
  obtain ⟨h0, ⟨⟨⟨⟨⟨⟨⟨h1, h2⟩, h3⟩, h4⟩, h5⟩, h6⟩, h7⟩, h8⟩⟩ := h
  obtain ⟨n1, hn1⟩ := pyLen_of_iterable _ h3
  obtain ⟨n2, hn2⟩ := pyLen_of_iterable _ h7
  rw [processMetadata, getItem_of_hasKey body "metadata" h0, exBind_ok,
    getItem_of_hasKey _ "current-schema-id" h1, exBind_ok,
    getItem_of_hasKey _ "schemas" h2, exBind_ok,
    hn1, exBind_ok,
    iterElems_of_iterable _ h3, exBind_ok,
    mapM_ok_of_all readSchema schemaOK schemaSpec readSchema_ok _ h4, exBind_ok,
    getItem_of_hasKey _ "snapshots" h5, exBind_ok,
    getItem_of_hasKey _ "current-snapshot-id" h6, exBind_ok,
    hn2, exBind_ok,
    iterElems_of_iterable _ h7, exBind_ok,
    mapM_ok_of_all (readSnapshot _) snapshotOK (snapshotSpec _)
      (readSnapshot_ok _) _ h8, exBind_ok]
  rfl

theorem pyLen_err (j : Json) (h : iterable j = false) :
    j.pyLen = .error .typeError := by
  cases j <;> simp_all [iterable, Json.pyLen]

theorem processMetadata_err (body : Json) (h : metadataOK body = false) :
    ∃ e, processMetadata body = .error e := by
  cases h0 : hasKey body "metadata" with
  | false =>
      obtain ⟨e, he⟩ := getItem_err_of_not_hasKey body "metadata" h0
      exact ⟨e, by rw [processMetadata, he]; rfl⟩
  | true =>
  have e0 := getItem_of_hasKey body "metadata" h0
  cases h1 : hasKey (keyOr body "metadata") "current-schema-id" with
  | false =>
      obtain ⟨e, he⟩ := getItem_err_of_not_hasKey _ "current-schema-id" h1
      exact ⟨e, by rw [processMetadata, e0, exBind_ok, he]; rfl⟩
  | true =>
  have e1 := getItem_of_hasKey _ "current-schema-id" h1
  cases h2 : hasKey (keyOr body "metadata") "schemas" with
  | false =>
      obtain ⟨e, he⟩ := getItem_err_of_not_hasKey _ "schemas" h2
      exact ⟨e, by rw [processMetadata, e0, exBind_ok, e1, exBind_ok, he]; rfl⟩
  | true =>
  have e2 := getItem_of_hasKey _ "schemas" h2
  cases h3 : iterable (keyOr (keyOr body "metadata") "schemas") with
  | false =>
      exact ⟨.typeError, by
        rw [processMetadata, e0, exBind_ok, e1, exBind_ok, e2, exBind_ok,
          pyLen_err _ h3]; rfl⟩
  | true =>
  obtain ⟨n1, hn1⟩ := pyLen_of_iterable _ h3
  have e3 := iterElems_of_iterable _ h3
  cases h4 : (elemsOf (keyOr (keyOr body "metadata") "schemas")).all schemaOK with
  | false =>
      obtain ⟨e, he⟩ := mapM_err_of_not_all readSchema schemaOK
        (fun x hx => ⟨schemaSpec x, readSchema_ok x hx⟩) readSchema_err _ h4
      exact ⟨e, by rw [processMetadata, e0, exBind_ok, e1, exBind_ok, e2, exBind_ok,
        hn1, exBind_ok, e3, exBind_ok, he]; rfl⟩
  | true =>
  have e4 := mapM_ok_of_all readSchema schemaOK schemaSpec readSchema_ok _ h4
  cases h5 : hasKey (keyOr body "metadata") "snapshots" with
  | false =>
      obtain ⟨e, he⟩ := getItem_err_of_not_hasKey _ "snapshots" h5
      exact ⟨e, by rw [processMetadata, e0, exBind_ok, e1, exBind_ok, e2, exBind_ok,
        hn1, exBind_ok, e3, exBind_ok, e4, exBind_ok, he]; rfl⟩
  | true =>
  have e5 := getItem_of_hasKey _ "snapshots" h5
  cases h6 : hasKey (keyOr body "metadata") "current-snapshot-id" with
  | false =>
      obtain ⟨e, he⟩ := getItem_err_of_not_hasKey _ "current-snapshot-id" h6
      exact ⟨e, by rw [processMetadata, e0, exBind_ok, e1, exBind_ok, e2, exBind_ok,
        hn1, exBind_ok, e3, exBind_ok, e4, exBind_ok, e5, exBind_ok, he]; rfl⟩
  | true =>
  have e6 := getItem_of_hasKey _ "current-snapshot-id" h6
  cases h7 : iterable (keyOr (keyOr body "metadata") "snapshots") with
  | false =>
      exact ⟨.typeError, by
        rw [processMetadata, e0, exBind_ok, e1, exBind_ok, e2, exBind_ok,
          hn1, exBind_ok, e3, exBind_ok, e4, exBind_ok, e5, exBind_ok, e6, exBind_ok,
          pyLen_err _ h7]
        rfl⟩
  | true =>
  obtain ⟨n2, hn2⟩ := pyLen_of_iterable _ h7
  have e7 := iterElems_of_iterable _ h7
  cases h8 : (elemsOf (keyOr (keyOr body "metadata") "snapshots")).all snapshotOK with
  | false =>
      obtain ⟨e, he⟩ := mapM_err_of_not_all
        (readSnapshot (keyOr (keyOr body "metadata") "current-snapshot-id")) snapshotOK
        (fun x hx => ⟨snapshotSpec _ x, readSnapshot_ok _ x hx⟩)
        (readSnapshot_err _) _ h8
      exact ⟨e, by rw [processMetadata, e0, exBind_ok, e1, exBind_ok, e2, exBind_ok,
        hn1, exBind_ok, e3, exBind_ok, e4, exBind_ok, e5, exBind_ok, e6, exBind_ok,
        hn2, exBind_ok, e7, exBind_ok, he]; rfl⟩
  | true =>
      simp [metadataOK, h0, h1, h2, h3, h4, h5, h6, h7, h8] at h

theorem processMetadata_ok_iff (body : Json) :
    processMetadata body = .ok (reportSpec body) ↔ metadataOK body = true := by
  constructor
  · intro h
    cases hm : metadataOK body with
    | true => rfl
    | false =>
        obtain ⟨e, he⟩ := processMetadata_err body hm
        rw [he] at h
        cases h
  · exact processMetadata_ok body

theorem processMetadata_isOk_iff (body : Json) :
    (∃ r, processMetadata body = .ok r) ↔ metadataOK body = true := by
  constructor
  · rintro ⟨r, hr⟩
    cases hm : metadataOK body with
    | true => rfl
    | false =>
        obtain ⟨e, he⟩ := processMetadata_err body hm
        rw [he] at hr
        cases hr
  · intro hm
    exact ⟨reportSpec body, processMetadata_ok body hm⟩

theorem getItem_of_lookup (j : Json) (k : String) (v : Json)
    (h : lookupKey j k = some v) : j.getItem k = .ok v := by
  cases j <;> simp only [lookupKey] at h
  case obj kvs => simp [Json.getItem, h]
  all_goals cases h

theorem getItem_of_lookup_none (kvs : List (String × Json)) (k : String)
    (h : kvs.lookup k = none) : (Json.obj kvs).getItem k = .error (.keyError k) := by
  simp [Json.getItem, h]

theorem raise_for_status_ok (resp : Response) (h : ¬(400 ≤ resp.status ∧ resp.status < 600)) :
    raise_for_status resp = .ok () := by
  rw [raise_for_status, if_neg h]

/-- C3: for every token response whose status is below the
`raise_for_status` error range, `get_token` returns the `access_token`
field of the body verbatim when it is present, and raises
`KeyError 'access_token'` when the body is an object without that field. -/
theorem c3_access_token_verbatim (host client_id client_secret : String)
    (resp : Response) (hs : resp.status < 400) :
    (∀ v : Json, lookupKey resp.body "access_token" = some v →
      (get_token host client_id client_secret resp).2 = .ok v) ∧
    (∀ kvs : List (String × Json), resp.body = .obj kvs →
      lookupKey resp.body "access_token" = none →
      (get_token host client_id client_secret resp).2 = .error (.keyError "access_token")) := by
  have hraise := raise_for_status_ok resp (by omega)
  constructor
  · intro v hv
    show (do
      let _ ← raise_for_status resp
      resp.body.getItem "access_token") = Except.ok v
    rw [hraise, exBind_ok, getItem_of_lookup _ _ _ hv]
  · intro kvs hkvs hnone
    show (do
      let _ ← raise_for_status resp
      resp.body.getItem "access_token") = Except.error (.keyError "access_token")
    rw [hraise, exBind_ok, hkvs]
    exact getItem_of_lookup_none kvs _ (by rw [hkvs] at hnone; exact hnone)

/-- C3 witness: the spec's scenario — the token endpoint answers 200 with
body `{"access_token": "abc123"}` and `get_token` returns `"abc123"`. -/
theorem c3_access_token_verbatim_witness :
    (get_token "localhost:8183" "admin" "admin"
       ⟨200, .obj [("access_token", .str "abc123")]⟩).2 = .ok (.str "abc123") :=
  (c3_access_token_verbatim "localhost:8183" "admin" "admin"
      ⟨200, .obj [("access_token", .str "abc123")]⟩ (by decide)).1
    (.str "abc123") (by decide)

/-- C6: a token response with status in the `raise_for_status` error range
`[400, 600)` makes `get_token` raise the HTTP error rather than return a
"no result" value. -/
theorem c6_token_http_error (host client_id client_secret : String) (resp : Response)
    (h1 : 400 ≤ resp.status) (h2 : resp.status < 600) :
    (get_token host client_id client_secret resp).2 = .error (.httpError resp.status) := by
  show (do
    let _ ← raise_for_status resp
    resp.body.getItem "access_token") = Except.error (.httpError resp.status)
  rw [raise_for_status, if_pos ⟨h1, h2⟩]
  rfl

/-- C6 witness: a 401 token response raises `HTTPError 401`. -/
theorem c6_token_http_error_witness :
    (get_token "localhost:8183" "admin" "admin" ⟨401, .obj []⟩).2
      = .error (.httpError 401) :=
  c6_token_http_error "localhost:8183" "admin" "admin" ⟨401, .obj []⟩
    (by decide) (by decide)

/-- C2 (amended): for the three list operations a 200 status yields the
parsed body and any other status yields `None`, without raising; for
`get_table_metadata` a non-200 status likewise yields `None` without
raising, and a 200 status returns the parsed body provided the traversed
metadata keys are present (`metadataOK`) — otherwise the traversal raises
(see the counterexample). -/
theorem c2_read_ops_amended (host : String) (token : Json)
    (catalog ns tbl : String) (resp : Response) :
    ((resp.status = 200 → (list_catalogs host token resp).2 = .ok (some resp.body)) ∧
     (resp.status ≠ 200 → (list_catalogs host token resp).2 = .ok none)) ∧
    ((resp.status = 200 → (list_namespaces host token catalog resp).2 = .ok (some resp.body)) ∧
     (resp.status ≠ 200 → (list_namespaces host token catalog resp).2 = .ok none)) ∧
    ((resp.status = 200 → (list_tables host token catalog ns resp).2 = .ok (some resp.body)) ∧
     (resp.status ≠ 200 → (list_tables host token catalog ns resp).2 = .ok none)) ∧
    ((resp.status = 200 → metadataOK resp.body = true →
        (get_table_metadata host token catalog ns tbl resp).2 =
          .ok (some (reportSpec resp.body, resp.body))) ∧
     (resp.status ≠ 200 →
        (get_table_metadata host token catalog ns tbl resp).2 = .ok none)) := by
  refine And.intro (And.intro (fun hca => ?hca) fun hcb => ?hcb)
    (And.intro (And.intro (fun hna => ?hna) fun hnb => ?hnb)
      (And.intro (And.intro (fun hta => ?hta) fun htb => ?htb)
        (And.intro (fun hma hmok => ?hma) fun hmb => ?hmb)))
  case hca => simp [list_catalogs, hca]
  case hcb => simp [list_catalogs, hcb]
  case hna => simp [list_namespaces, hna]
  case hnb => simp [list_namespaces, hnb]
  case hta => simp [list_tables, hta]
  case htb => simp [list_tables, htb]
  case hma =>
    show (if resp.status = 200 then _ else _) = _
    rw [if_pos hma, processMetadata_ok resp.body hmok, exBind_ok]
    rfl
  case hmb =>
    show (if resp.status = 200 then _ else _) = _
    rw [if_neg hmb]
    rfl

/-- C2 witness: a 404 on the catalog list yields `None`; a 200 with body
`{"catalogs": []}` yields that body; a 200 metadata response for the
scenario body yields the body. -/
theorem c2_read_ops_amended_witness :
    (list_catalogs "localhost:8183" (.str "tok") ⟨404, .obj []⟩).2 = .ok none ∧
    (list_catalogs "localhost:8183" (.str "tok")
        ⟨200, .obj [("catalogs", .arr [])]⟩).2 = .ok (some (.obj [("catalogs", .arr [])])) ∧
    (get_table_metadata "localhost:8183" (.str "tok") "polaris4" "polaris4_namespace"
        "customers" ⟨404, .obj []⟩).2 = .ok none :=
  ⟨(c2_read_ops_amended "localhost:8183" (.str "tok") "polaris4" "polaris4_namespace"
      "customers" ⟨404, .obj []⟩).1.2 (by decide),
   (c2_read_ops_amended "localhost:8183" (.str "tok") "polaris4" "polaris4_namespace"
      "customers" ⟨200, .obj [("catalogs", .arr [])]⟩).1.1 (by decide),
   (c2_read_ops_amended "localhost:8183" (.str "tok") "polaris4" "polaris4_namespace"
      "customers" ⟨404, .obj []⟩).2.2.2.2 (by decide)⟩

/-- C2 counterexample: on a 200 response whose (well-formed JSON) body is
the empty object, `get_table_metadata` raises `KeyError 'metadata'` instead
of returning the parsed body — so the claim's "returns the parsed JSON body
exactly as received" does not hold of every 200 response to this
operation. -/
theorem c2_counterexample :
    (get_table_metadata "localhost:8183" (.str "tok") "polaris4" "polaris4_namespace"
        "customers" ⟨200, .obj []⟩).2 = .error (.keyError "metadata") := by decide

/-- C4: each create operation returns the parsed body on status 200 or 201
and `None` on any other status. -/
theorem c4_create_ops (host : String) (token : Json)
    (catalog base_location ns tbl : String) (storage_config schema : Json)
    (props1 props2 : Option Json) (resp : Response) :
    ((resp.status = 200 ∨ resp.status = 201) →
      (create_catalog host token catalog base_location storage_config resp).2
          = .ok (some resp.body) ∧
      (create_namespace host token catalog ns props1 resp).2 = .ok (some resp.body) ∧
      (create_table host token catalog ns tbl schema props2 resp).2
          = .ok (some resp.body)) ∧
    (¬(resp.status = 200 ∨ resp.status = 201) →
      (create_catalog host token catalog base_location storage_config resp).2 = .ok none ∧
      (create_namespace host token catalog ns props1 resp).2 = .ok none ∧
      (create_table host token catalog ns tbl schema props2 resp).2 = .ok none) := by
  constructor
  · intro h
    exact ⟨by simp [create_catalog, if_pos h], by simp [create_namespace, if_pos h],
      by simp [create_table, if_pos h]⟩
  · intro h
    exact ⟨by simp [create_catalog, if_neg h], by simp [create_namespace, if_neg h],
      by simp [create_table, if_neg h]⟩

/-- C4 witness: a 201 response yields the parsed body, a 409 yields `None`. -/
theorem c4_create_ops_witness :
    (create_catalog "localhost:8183" (.str "tok") "polaris4" "s3://bucket/warehouse"
        (.obj []) ⟨201, .obj [("name", .str "polaris4")]⟩).2
      = .ok (some (.obj [("name", .str "polaris4")])) ∧
    (create_namespace "localhost:8183" (.str "tok") "polaris4" "polaris4_namespace"
        none ⟨409, .obj []⟩).2 = .ok none :=
  ⟨((c4_create_ops "localhost:8183" (.str "tok") "polaris4" "s3://bucket/warehouse"
      "polaris4_namespace" "customers" (.obj []) (.obj []) none none
      ⟨201, .obj [("name", .str "polaris4")]⟩).1 (by decide)).1,
   ((c4_create_ops "localhost:8183" (.str "tok") "polaris4" "s3://bucket/warehouse"
      "polaris4_namespace" "customers" (.obj []) (.obj []) none none
      ⟨409, .obj []⟩).2 (by decide)).2.1⟩

/-- C8: on a 200 body, the traversal succeeds returning the full metadata
value (with the report characterised by `reportSpec`) exactly when the keys
`metadataOK` names — `metadata`, `current-schema-id`, `schemas`,
`schema-id`, `fields`, `name`, `type`, `snapshots`, `current-snapshot-id`,
`snapshot-id`, `timestamp-ms` — are present where traversed; when
`metadataOK` fails the traversal raises — in particular an object body
lacking `metadata` raises the lookup fault `KeyError 'metadata'` — and a
snapshot missing `operation`/`summary` is still processed, with the
defaults `"N/A"` and `{}`. -/
theorem c8_required_keys (body : Json) :
    (processMetadata body = .ok (reportSpec body) ↔ metadataOK body = true) ∧
    (metadataOK body = false → ∃ e, processMetadata body = .error e) ∧
    (∀ (host : String) (token : Json) (c n t : String) (resp : Response),
      resp.status = 200 → resp.body = body → metadataOK body = true →
      (get_table_metadata host token c n t resp).2 = .ok (some (reportSpec body, body))) ∧
    (∀ cur s : Json, snapshotOK s = true → lookupKey s "operation" = none →
      ∃ out : SnapshotSummary, readSnapshot cur s = .ok out ∧ out.operation = .str "N/A") ∧
    (∀ cur s : Json, snapshotOK s = true → lookupKey s "summary" = none →
      ∃ out : SnapshotSummary, readSnapshot cur s = .ok out ∧ out.summary = .obj []) ∧
    (∀ kvs : List (String × Json), kvs.lookup "metadata" = none →
      processMetadata (.obj kvs) = .error (.keyError "metadata")) := by
  refine ⟨processMetadata_ok_iff body, processMetadata_err body, ?_, ?_, ?_, ?_⟩
  · intro host token c n t resp hs hb hm
    subst hb
    show (if resp.status = 200 then _ else _) = _
    rw [if_pos hs, processMetadata_ok resp.body hm, exBind_ok]
    rfl
  · intro cur s hok hnone
    exact ⟨snapshotSpec cur s, readSnapshot_ok cur s hok,
      by simp [snapshotSpec, hnone]⟩
  · intro cur s hok hnone
    exact ⟨snapshotSpec cur s, readSnapshot_ok cur s hok,
      by simp [snapshotSpec, hnone]⟩
  · intro kvs hnone
    rw [processMetadata, getItem_of_lookup_none kvs _ hnone]
    rfl

/-- C8 witness: on the scenario body (whose snapshot 99 has no
`operation`/`summary` keys) the traversal succeeds and returns the full
body; on the empty object it raises. -/
theorem c8_required_keys_witness :
    metadataOK scenarioBody = true ∧
    (get_table_metadata "localhost:8183" (.str "tok") "polaris4" "polaris4_namespace"
        "customers" ⟨200, scenarioBody⟩).2
      = .ok (some (reportSpec scenarioBody, scenarioBody)) ∧
    metadataOK (.obj []) = false ∧
    (∃ e, processMetadata (.obj []) = .error e) :=
  ⟨by decide,
   (c8_required_keys scenarioBody).2.2.1 "localhost:8183" (.str "tok") "polaris4"
     "polaris4_namespace" "customers" ⟨200, scenarioBody⟩ rfl rfl (by decide),
   by decide,
   (c8_required_keys (.obj [])).2.1 (by decide)⟩

theorem countP_eq_nodup (cur : Json) :
    ∀ ids : List Json, ids.Nodup →
      ids.countP (fun x => decide (x = cur)) =
        if ids.any (fun x => decide (x = cur)) then 1 else 0
  | [], _ => by simp
  | x :: ids, h => by
      rw [List.nodup_cons] at h
      rw [List.countP_cons, List.any_cons]
      by_cases hx : x = cur
      · subst hx
        have hz : ids.countP (fun y => decide (y = x)) = 0 := by
          rw [List.countP_eq_zero]
          intro a ha
          simp only [decide_eq_true_eq]
          intro hax
          exact h.1 (hax ▸ ha)
        simp [hz]
      · have hd : (decide (x = cur)) = false := by simp [hx]
        rw [hd]
        simp only [Bool.false_or, if_neg, Nat.add_zero]
        exact countP_eq_nodup cur ids h.2

/-- C1 (amended): on a 200 metadata response whose body holds N schemas and
M snapshots, the report holds exactly N schema summaries (each the schema id
with its fields' name/type pairs) and M snapshot summaries; the snapshots
flagged current are exactly those whose id equals `current-snapshot-id` —
hence, when the snapshot ids are pairwise distinct, exactly one is flagged
when a match exists and none otherwise. (With duplicate ids the code flags
every match; see the counterexample.) -/
theorem c1_metadata_counts (host : String) (token : Json) (c n t : String)
    (resp : Response) (m : Json) (ss sn : List Json) (r : MetadataReport) (body : Json)
    (hs : resp.status = 200)
    (hm : lookupKey resp.body "metadata" = some m)
    (hss : lookupKey m "schemas" = some (.arr ss))
    (hsn : lookupKey m "snapshots" = some (.arr sn))
    (hok : (get_table_metadata host token c n t resp).2 = .ok (some (r, body))) :
    r.schemas.length = ss.length ∧
    r.snapshots.length = sn.length ∧
    r.schemas = ss.map schemaSpec ∧
    r.snapshots = sn.map (snapshotSpec (keyOr m "current-snapshot-id")) ∧
    r.snapshots.countP (fun snap => snap.isCurrent) =
      sn.countP (fun s => keyOr s "snapshot-id" == keyOr m "current-snapshot-id") ∧
    ((sn.map fun s => keyOr s "snapshot-id").Nodup →
      r.snapshots.countP (fun snap => snap.isCurrent) =
        if sn.any (fun s => keyOr s "snapshot-id" == keyOr m "current-snapshot-id")
        then 1 else 0) := by
  have hunf : (get_table_metadata host token c n t resp).2 =
      (if resp.status = 200 then do
        let report ← processMetadata resp.body
        pure (some (report, resp.body))
      else pure none) := rfl
  rw [hunf, if_pos hs] at hok
  cases hp : processMetadata resp.body with
  | error e => rw [hp, exBind_err] at hok; cases hok
  | ok rep =>
      rw [hp, exBind_ok, exPure] at hok
      simp only [Except.ok.injEq, Option.some.injEq, Prod.mk.injEq] at hok
      obtain ⟨hr, hb⟩ := hok
      have hmok : metadataOK resp.body = true := (processMetadata_isOk_iff _).1 ⟨rep, hp⟩
      have hrep : rep = reportSpec resp.body := by
        have hh := processMetadata_ok resp.body hmok
        rw [hp] at hh
        injection hh
      have km : keyOr resp.body "metadata" = m := by rw [keyOr, hm]; rfl
      have ks : keyOr m "schemas" = .arr ss := by rw [keyOr, hss]; rfl
      have ksn : keyOr m "snapshots" = .arr sn := by rw [keyOr, hsn]; rfl
      have hrfull : r = ⟨keyOr m "current-schema-id", ss.map schemaSpec,
          keyOr m "current-snapshot-id",
          sn.map (snapshotSpec (keyOr m "current-snapshot-id"))⟩ := by
        rw [← hr, hrep, reportSpec, km, ks, ksn]
        rfl
      refine ⟨by rw [hrfull]; simp, by rw [hrfull]; simp, by rw [hrfull],
        by rw [hrfull], ?hcnt, ?hnod⟩
      case hcnt =>
        rw [hrfull]
        show (sn.map (snapshotSpec (keyOr m "current-snapshot-id"))).countP
            (fun snap => snap.isCurrent) = _
        rw [List.countP_map]
        rfl
      · intro hnd
        have key := countP_eq_nodup (keyOr m "current-snapshot-id")
          (sn.map fun s => keyOr s "snapshot-id") hnd
        rw [List.countP_map, List.any_map] at key
        rw [hrfull]
        show (sn.map (snapshotSpec (keyOr m "current-snapshot-id"))).countP
            (fun snap => snap.isCurrent) = _
        rw [List.countP_map]
        have hpred : ((fun snap : SnapshotSummary => snap.isCurrent) ∘
            snapshotSpec (keyOr m "current-snapshot-id")) =
            ((fun x : Json => decide (x = keyOr m "current-snapshot-id")) ∘
              fun s => keyOr s "snapshot-id") := by
          funext s
          show (keyOr s "snapshot-id" == keyOr m "current-snapshot-id") = _
          rw [Json.beq_eq_decide]
          rfl
        have hfun : (fun s : Json =>
            keyOr s "snapshot-id" == keyOr m "current-snapshot-id") =
            ((fun x : Json => decide (x = keyOr m "current-snapshot-id")) ∘
              fun s : Json => keyOr s "snapshot-id") := by
          funext s
          show (keyOr s "snapshot-id" == keyOr m "current-snapshot-id") = _
          rw [Json.beq_eq_decide]
          rfl
        rw [hpred, hfun, key]

/-- C1 witness: the spec's scenario (two schemas, snapshots 100 and 99 with
distinct ids, current id 100): two schema summaries, two snapshot
summaries, and — the ids being distinct and 100 matching — exactly one
snapshot flagged current. -/
theorem c1_metadata_counts_witness :
    (reportSpec scenarioBody).schemas.length = scenarioSchemas.length ∧
    (reportSpec scenarioBody).snapshots.length = scenarioSnapshots.length ∧
    (reportSpec scenarioBody).schemas = scenarioSchemas.map schemaSpec ∧
    (reportSpec scenarioBody).snapshots =
      scenarioSnapshots.map (snapshotSpec (keyOr scenarioMeta "current-snapshot-id")) ∧
    (reportSpec scenarioBody).snapshots.countP (fun snap => snap.isCurrent) =
      scenarioSnapshots.countP (fun s =>
        keyOr s "snapshot-id" == keyOr scenarioMeta "current-snapshot-id") ∧
    (reportSpec scenarioBody).snapshots.countP (fun snap => snap.isCurrent) =
      if scenarioSnapshots.any (fun s =>
          keyOr s "snapshot-id" == keyOr scenarioMeta "current-snapshot-id")
      then 1 else 0 := by
  have happ := c1_metadata_counts "localhost:8183" (.str "tok") "polaris4"
    "polaris4_namespace" "customers" ⟨200, scenarioBody⟩ scenarioMeta
    scenarioSchemas scenarioSnapshots (reportSpec scenarioBody) scenarioBody
    rfl (by decide) (by decide) (by decide) (by decide)
  exact ⟨happ.1, happ.2.1, happ.2.2.1, happ.2.2.2.1, happ.2.2.2.2.1,
    happ.2.2.2.2.2 (by decide)⟩

/-- C1 counterexample: a 200 body whose two snapshots both carry id 100,
with `current-snapshot-id: 100`: some snapshot's id matches, yet the code
flags two snapshots as current, not exactly one. -/
theorem c1_counterexample :
    (get_table_metadata "localhost:8183" (.str "tok") "polaris4" "polaris4_namespace"
        "customers" ⟨200, dupSnapshotBody⟩).2
      = .ok (some (reportSpec dupSnapshotBody, dupSnapshotBody)) ∧
    (reportSpec dupSnapshotBody).snapshots.countP (fun snap => snap.isCurrent) = 2 ∧
    (elemsOf (keyOr (keyOr dupSnapshotBody "metadata") "snapshots")).any
        (fun s => keyOr s "snapshot-id" ==
          keyOr (keyOr dupSnapshotBody "metadata") "current-snapshot-id") = true := by
  refine ⟨?_, ?_, ?_⟩ <;> decide

/-- C5: once authentication succeeds, `main` issues all four listed calls in
order whatever the statuses of their responses — in particular a non-success
status on any of them does not stop the sequence, because that call returns
`None` instead of raising. -/
theorem c5_sequence_continues (host client_id client_secret : String)
    (tokenResp r1 r2 r3 r4 : Response) (tok : Json)
    (hauth : (get_token host client_id client_secret tokenResp).2 = .ok tok) :
    mainTrace host client_id client_secret tokenResp r1 r2 r3 r4 =
      [.authenticateCall, .listCatalogsCall, .listNamespacesCall, .listTablesCall,
       .getTableMetadataCall] ∧
    (r1.status ≠ 200 → (list_catalogs host tok r1).2 = .ok none) ∧
    (r2.status ≠ 200 → (list_namespaces host tok catalog_name r2).2 = .ok none) ∧
    (r3.status ≠ 200 → (list_tables host tok catalog_name namespace_name r3).2 = .ok none) ∧
    (r4.status ≠ 200 →
      (get_table_metadata host tok catalog_name namespace_name table_name r4).2
        = .ok none) := by
  refine ⟨?_, fun h => ?_, fun h => ?_, fun h => ?_, fun h => ?_⟩
  · rw [mainTrace, hauth]
    cases hmd : (get_table_metadata host tok catalog_name namespace_name table_name r4).2 with
    | error e => simp [list_catalogs, list_namespaces, list_tables, hmd]
    | ok v => simp [list_catalogs, list_namespaces, list_tables, hmd]
  · simp [list_catalogs, h]
  · simp [list_namespaces, h]
  · simp [list_tables, h]
  · show (if r4.status = 200 then _ else _) = _
    rw [if_neg h]
    rfl

/-- C5 witness: with a successful token exchange and 404 responses to all
four listed calls, every call is still issued and each returns `None`. -/
theorem c5_sequence_continues_witness :
    mainTrace "localhost:8183" "admin" "admin"
        ⟨200, .obj [("access_token", .str "abc123")]⟩
        ⟨404, .obj []⟩ ⟨404, .obj []⟩ ⟨404, .obj []⟩ ⟨404, .obj []⟩ =
      [.authenticateCall, .listCatalogsCall, .listNamespacesCall, .listTablesCall,
       .getTableMetadataCall] ∧
    (list_catalogs "localhost:8183" (.str "abc123") ⟨404, .obj []⟩).2 = .ok none ∧
    (list_namespaces "localhost:8183" (.str "abc123") catalog_name ⟨404, .obj []⟩).2
      = .ok none ∧
    (list_tables "localhost:8183" (.str "abc123") catalog_name namespace_name
        ⟨404, .obj []⟩).2 = .ok none ∧
    (get_table_metadata "localhost:8183" (.str "abc123") catalog_name namespace_name
        table_name ⟨404, .obj []⟩).2 = .ok none := by
  have happ := c5_sequence_continues "localhost:8183" "admin" "admin"
    ⟨200, .obj [("access_token", .str "abc123")]⟩
    ⟨404, .obj []⟩ ⟨404, .obj []⟩ ⟨404, .obj []⟩ ⟨404, .obj []⟩ (.str "abc123") (by decide)
  exact ⟨happ.1, happ.2.1 (by decide), happ.2.2.1 (by decide), happ.2.2.2.1 (by decide),
    happ.2.2.2.2 (by decide)⟩

theorem management_base_ne_data_api_base (host catalog : String) :
    management_base host ≠ data_api_base host catalog := by
  intro h
  have hd : (management_base host).data = (data_api_base host catalog).data := by rw [h]
  rw [management_base, data_api_base, String.data_append, String.data_append,
    String.data_append, String.data_append, List.append_assoc, List.append_assoc] at hd
  have htail := List.append_cancel_left (List.append_cancel_left hd)
  have h5 : ("/api/management/v1".data)[5]? = ("/api/catalog/v1/".data ++ catalog.data)[5]? := by
    rw [htail]
  rw [List.getElem?_append,
    if_pos (by decide : (5 : Nat) < "/api/catalog/v1/".data.length)] at h5
  exact absurd h5 (by decide)

/-- C7: `list_catalogs`/`create_catalog` address the management API prefix;
`list_namespaces`/`create_namespace`/`list_tables`/`create_table`/
`get_table_metadata` address the per-catalog data API prefix containing the
catalog name; and the two prefixes are distinct for every host and catalog
name. -/
theorem c7_path_prefixes (host : String) (token : Json)
    (catalog ns tbl base_location : String) (storage_config schema : Json)
    (props1 props2 : Option Json) (resp : Response) :
    (list_catalogs host token resp).1.url = management_base host ++ "/catalogs" ∧
    (create_catalog host token catalog base_location storage_config resp).1.url
      = management_base host ++ "/catalogs" ∧
    (list_namespaces host token catalog resp).1.url
      = data_api_base host catalog ++ "/namespaces" ∧
    (create_namespace host token catalog ns props1 resp).1.url
      = data_api_base host catalog ++ "/namespaces" ∧
    (list_tables host token catalog ns resp).1.url
      = data_api_base host catalog ++ "/namespaces/" ++ ns ++ "/tables" ∧
    (create_table host token catalog ns tbl schema props2 resp).1.url
      = data_api_base host catalog ++ "/namespaces/" ++ ns ++ "/tables" ∧
    (get_table_metadata host token catalog ns tbl resp).1.url
      = data_api_base host catalog ++ "/namespaces/" ++ ns ++ "/tables/" ++ tbl ∧
    management_base host ≠ data_api_base host catalog := by
  refine ⟨?_, ?_, rfl, rfl, rfl, rfl, rfl, management_base_ne_data_api_base host catalog⟩
  · show ("http://" ++ host ++ "/api/management/v1/catalogs" : String) = _
    rw [management_base]
    simp only [String.append_assoc]
    rw [show ("/api/management/v1" ++ "/catalogs" : String) = "/api/management/v1/catalogs"
      from by decide]
  · show ("http://" ++ host ++ "/api/management/v1/catalogs" : String) = _
    rw [management_base]
    simp only [String.append_assoc]
    rw [show ("/api/management/v1" ++ "/catalogs" : String) = "/api/management/v1/catalogs"
      from by decide]

/-- C9: the `create_namespace` payload is exactly
`{"namespace": [namespace_name], "properties": p}` — the namespace
identifier is always the one-element list, so multi-segment namespaces
cannot be expressed — and `p` is the given mapping, or `{}` when the
argument is omitted (`none`) or falsy. -/
theorem c9_namespace_payload (host : String) (token : Json)
    (catalog ns : String) (props : Option Json) (resp : Response) :
    ∃ properties : Json,
      (create_namespace host token catalog ns props resp).1.jsonBody =
        some (.obj [("namespace", .arr [.str ns]), ("properties", properties)]) ∧
      (props = none → properties = .obj []) ∧
      (∀ p, props = some p → pyTruthy p = false → properties = .obj []) ∧
      (∀ p, props = some p → pyTruthy p = true → properties = p) := by
  refine ⟨match props with
    | some p => if pyTruthy p then p else .obj []
    | none => .obj [], rfl, ?_, ?_, ?_⟩
  · intro h
    subst h
    rfl
  · intro p hp hf
    subst hp
    simp [hf]
  · intro p hp ht
    subst hp
    simp [ht]

/-- C9 witness: a truthy properties mapping is forwarded, an omitted one
becomes `{}`; the namespace identifier is the one-element list in both. -/
theorem c9_namespace_payload_witness :
    (create_namespace "localhost:8183" (.str "tok") "polaris4" "polaris4_namespace"
        (some (.obj [("owner", .str "admin")])) ⟨201, .obj []⟩).1.jsonBody =
      some (.obj [("namespace", .arr [.str "polaris4_namespace"]),
                  ("properties", .obj [("owner", .str "admin")])]) ∧
    (create_namespace "localhost:8183" (.str "tok") "polaris4" "polaris4_namespace"
        none ⟨201, .obj []⟩).1.jsonBody =
      some (.obj [("namespace", .arr [.str "polaris4_namespace"]),
                  ("properties", .obj [])]) ∧
    (∃ properties : Json,
      (create_namespace "localhost:8183" (.str "tok") "polaris4" "polaris4_namespace"
          (some (.obj [])) ⟨201, .obj []⟩).1.jsonBody =
        some (.obj [("namespace", .arr [.str "polaris4_namespace"]),
                    ("properties", properties)]) ∧
      (some (Json.obj []) = none → properties = .obj []) ∧
      (∀ p, some (Json.obj []) = some p → pyTruthy p = false → properties = .obj []) ∧
      (∀ p, some (Json.obj []) = some p → pyTruthy p = true → properties = p)) :=
  ⟨by decide, by decide,
   c9_namespace_payload "localhost:8183" (.str "tok") "polaris4" "polaris4_namespace"
     (some (.obj [])) ⟨201, .obj []⟩⟩

/-- C10: the `create_catalog` payload always has type `"INTERNAL"` and
carries the base location as the only entry of `properties`; no argument of
the operation can change either. -/
theorem c10_catalog_payload (host : String) (token : Json)
    (catalog base_location : String) (storage_config : Json) (resp : Response) :
    (create_catalog host token catalog base_location storage_config resp).1.jsonBody =
      some (.obj [("type", .str "INTERNAL"),
                  ("name", .str catalog),
                  ("properties", .obj [("default-base-location", .str base_location)]),
                  ("storageConfigInfo", storage_config)]) := rfl

/-- C7 witness: the prefixes instantiated at the hardcoded host and catalog
name are distinct, and the catalog-list URL sits under the management
prefix. -/
theorem c7_path_prefixes_witness :
    (list_catalogs "localhost:8183" (.str "tok") ⟨200, .obj []⟩).1.url
      = management_base "localhost:8183" ++ "/catalogs" ∧
    (list_namespaces "localhost:8183" (.str "tok") "polaris4" ⟨200, .obj []⟩).1.url
      = data_api_base "localhost:8183" "polaris4" ++ "/namespaces" ∧
    management_base "localhost:8183" ≠ data_api_base "localhost:8183" "polaris4" := by
  have happ := c7_path_prefixes "localhost:8183" (.str "tok") "polaris4"
    "polaris4_namespace" "customers" "s3://bucket/warehouse" (.obj []) (.obj [])
    none none ⟨200, .obj []⟩
  exact ⟨happ.1, happ.2.2.1, happ.2.2.2.2.2.2.2⟩
